import Mathlib

/-!
Shallow embedding of the configuration validation and derivation engine of the
minecraft-cdk stack (`MinecraftCdkStack`).  The constructor's control flow is
modelled as a pure function `buildStack` returning `Except String StackModel`:
a thrown configuration error becomes `Except.error`, a completed build becomes
`Except.ok` carrying the resource-graph facts the specification talks about
(ingress rules, derived environment, secret bindings, IAM policy of the DNS
rule function, the autoscaling-group reference obtained by the non-null
assertion `this.cluster.autoscalingGroup!`).

External collaborators (the S3 asset URL of a packaged plugin directory and
the ARN of a hosted zone resolved by id) are uninterpreted functions gathered
in `ExternalEnv`.  JavaScript truthiness is modelled faithfully: an optional
string is truthy iff present and non-empty, an optional array is truthy iff
present (also when empty), an optional boolean is truthy iff `some true`.
-/

namespace MinecraftCdk

/-- Difficulty enumeration from the source (`'peaceful' | 'easy' | 'normal' | 'hard'`). -/
inductive Difficulty
  | peaceful
  | easy
  | normal
  | hard
deriving DecidableEq, Repr

/-- String tag of a difficulty value, as it is written into the environment. -/
def difficultyStr : Difficulty → String
  | .peaceful => "peaceful"
  | .easy => "easy"
  | .normal => "normal"
  | .hard => "hard"

/-- `MinecraftServerOptions` from the source; all fields optional. -/
structure MinecraftServerOptions where
  version : Option String := none
  ops : Option (List String) := none
  difficulty : Option Difficulty := none
  mods : Option (List String) := none
  motd : Option String := none
deriving DecidableEq, Repr

/-- `CustomDomainProps` from the source. -/
structure CustomDomainProps where
  hostedZoneId : String
  domainName : String
deriving DecidableEq, Repr

/-- Model of a VPC: only the construction parameters the source mentions. -/
structure VpcModel where
  maxAzs : Nat
  publicCidrMask : Nat
deriving DecidableEq, Repr

/-- Model of an autoscaling group (the cluster's capacity group). -/
structure AutoScalingGroupModel where
  autoScalingGroupName : String
  instanceType : String
  keyName : Option String := none
  spotPrice : Option String := none
  minCapacity : Nat
  maxCapacity : Nat
deriving DecidableEq, Repr

/-- Model of the `ICluster` interface the stack consumes: the capacity flag
`hasEc2Capacity`, the OPTIONAL `autoscalingGroup` reference (optional in the
interface independently of the capacity flag), and the cluster's VPC. -/
structure IClusterModel where
  hasEc2Capacity : Bool
  autoscalingGroup : Option AutoScalingGroupModel := none
  vpc : VpcModel
deriving DecidableEq, Repr

/-- `ClusterOptions` from the source. -/
structure ClusterOptions where
  instanceType : String
  keyName : Option String := none
  spotPrice : Option String := none
  vpc : Option VpcModel := none
deriving DecidableEq, Repr

/-- `MinecraftCdkStackProps` from the source; every optional field is an
`Option`, `rcon` keeps its optional-boolean nature. -/
structure MinecraftCdkStackProps where
  imageTag : Option String := none
  cluster : Option IClusterModel := none
  clusterOptions : Option ClusterOptions := none
  serverOptions : Option MinecraftServerOptions := none
  plugins : Option String := none
  backup : Option String := none
  rcon : Option Bool := none
  memoryReservation : Option Nat := none
  customDomain : Option CustomDomainProps := none
deriving DecidableEq, Repr

/-- Model of an S3 asset: source path and the public HTTP URL of its object. -/
structure AssetModel where
  path : String
  httpUrl : String
deriving DecidableEq, Repr

/-- Ingress port of a security-group rule. -/
inductive IngressPort
  | tcp (port : Nat)
  | icmpPing
deriving DecidableEq, Repr

/-- An `allowFromAnyIpv4` ingress rule on the cluster's connections. -/
structure IngressRule where
  port : IngressPort
  description : String
deriving DecidableEq, Repr

/-- An IAM policy statement (`actions` and `resources`). -/
structure PolicyStatement where
  actions : List String
  resources : List String
deriving DecidableEq, Repr

/-- Artifacts of the `customDomain` method: the rule function's environment
and initial policy, and the event rule's autoscaling-group-name filter. -/
structure DomainModel where
  hostedZoneId : String
  domainName : String
  fnEnvironment : List (String × String)
  initialPolicy : List PolicyStatement
  ruleAsgFilter : List String
deriving DecidableEq, Repr

/-- The facts of a completed build that the specification's claims mention. -/
structure StackModel where
  vpc : VpcModel
  cluster : IClusterModel
  autoScaling : Option AutoScalingGroupModel
  clusterIngress : List IngressRule
  backupPlan : Option String
  pluginsAsset : Option AssetModel
  rconSecretCreated : Bool
  image : String
  environment : List (String × String)
  secrets : List (String × String)
  memoryReservationMiB : Nat
  portMappings : List Nat
  domain : Option DomainModel
deriving DecidableEq, Repr

/-- Uninterpreted external collaborators: S3 asset URLs and hosted-zone ARNs. -/
structure ExternalEnv where
  assetUrlOf : String → String
  hostedZoneArnOf : String → String

/-- JavaScript truthiness of an optional string (`undefined` and `""` falsy). -/
def truthyStr : Option String → Bool
  | none => false
  | some s => !(s == "")

/-- JavaScript truthiness of an optional boolean (`undefined` falsy). -/
def truthyBool : Option Bool → Bool
  | none => false
  | some b => b

/-- The four entries `makeEnv` starts from (`const env = ...`). -/
def baselineEnv : List (String × String) :=
  [("EULA", "true"), ("TYPE", "PAPER"),
   ("OVERRIDE_SERVER_PROPERTIES", "true"), ("FORCE_REDOWNLOAD", "true")]

/-- Entry contributed by `if (props.x) env[KEY] = props.x` for a string
option: skipped when absent or empty (JavaScript truthiness). -/
def strEntry (key : String) (v? : Option String) : List (String × String) :=
  match v? with
  | some v => if v == "" then [] else [(key, v)]
  | none => []

/-- Entry contributed by `if (props.xs) env[KEY] = props.xs.join(',')` for an
array option: an array is truthy whenever present, also when empty. -/
def listEntry (key : String) (l? : Option (List String)) : List (String × String) :=
  match l? with
  | some l => [(key, String.intercalate "," l)]
  | none => []

/-- Entry contributed by `if (props.difficulty) env['DIFFICULTY'] = ...`. -/
def diffEntry (d? : Option Difficulty) : List (String × String) :=
  match d? with
  | some d => [("DIFFICULTY", difficultyStr d)]
  | none => []

/-- Entry contributed by `if (this.plugins) env['MODPACK'] = ...httpUrl`. -/
def modpackEntry (a? : Option AssetModel) : List (String × String) :=
  match a? with
  | some a => [("MODPACK", a.httpUrl)]
  | none => []

/-- Entry contributed by `if (this.rconSecret) env['ENABLE_RCON'] = 'true'`. -/
def rconEntry (rconSecret : Bool) : List (String × String) :=
  if rconSecret then [("ENABLE_RCON", "true")] else []

/-- Faithful translation of the `makeEnv` method: baseline entries, early
return when `props` (the server options) is absent, then one conditional
entry per option in source order; `this.plugins` and `this.rconSecret` are
passed in as the values of those fields at the call site.  Note the early
return skips the `MODPACK` and `ENABLE_RCON` lines as in the source. -/
def makeEnv (plugins : Option AssetModel) (rconSecret : Bool)
    (props : Option MinecraftServerOptions) : List (String × String) :=
  match props with
  | none => baselineEnv
  | some p =>
    baselineEnv
    ++ strEntry "VERSION" p.version
    ++ diffEntry p.difficulty
    ++ listEntry "OPS" p.ops
    ++ listEntry "MODS" p.mods
    ++ strEntry "MOTD" p.motd
    ++ modpackEntry plugins
    ++ rconEntry rconSecret

/-- Faithful translation of the `makeSecret` method: the secret-binding map
holds exactly the rcon password when the rcon secret exists, else nothing.
The string value stands for `Secret.fromSecretsManager(this.rconSecret)`. -/
def makeSecret (rconSecret : Bool) : List (String × String) :=
  if rconSecret then [("RCON_PASSWORD", "RconSecret")] else []

/-- The `this.plugins` field: an asset is created iff `props.plugins` is a
truthy (present, non-empty) path; its URL comes from the S3 collaborator. -/
def pluginAssetOf (ext : ExternalEnv) (plugins : Option String) : Option AssetModel :=
  match plugins with
  | some p => if p == "" then none else some { path := p, httpUrl := ext.assetUrlOf p }
  | none => none

/-- The three unconditional `allowFromAnyIpv4` rules attached right after
cluster resolution: TCP/22, TCP/25565 and ICMP ping. -/
def baselineIngress : List IngressRule :=
  [{ port := .tcp 22, description := "Allow ssh" },
   { port := .tcp 25565, description := "Allow minecraft connections" },
   { port := .icmpPing, description := "Allow ping" }]

/-- The additional rule attached when rcon is enabled: TCP/25575. -/
def rconIngress : IngressRule :=
  { port := .tcp 25575, description := "Allow rcon connections" }

/-- The stack record of a completed build before the `customDomain` step
(source lines 99-183): the autoscaling reference from the non-null assertion
`this.cluster.autoscalingGroup!`, ingress rules, backup plan, plugin asset,
rcon secret, container environment, secret bindings and port mappings. -/
def assembleBase (ext : ExternalEnv) (props : MinecraftCdkStackProps)
    (cluster : IClusterModel) (vpc : VpcModel) : StackModel :=
  { vpc := vpc
    cluster := cluster
    autoScaling := cluster.autoscalingGroup
    clusterIngress :=
      baselineIngress ++ (if truthyBool props.rcon then [rconIngress] else [])
    backupPlan := props.backup
    pluginsAsset := pluginAssetOf ext props.plugins
    rconSecretCreated := truthyBool props.rcon
    image := String.append "itzg/minecraft-server:" (props.imageTag.getD "latest")
    environment :=
      makeEnv (pluginAssetOf ext props.plugins) (truthyBool props.rcon) props.serverOptions
    secrets := makeSecret (truthyBool props.rcon)
    memoryReservationMiB := props.memoryReservation.getD 1024
    portMappings := [25565] ++ (if truthyBool props.rcon then [25575] else [])
    domain := none }

/-- Artifacts of the `customDomain` method for a given autoscaling group:
the rule function's environment and its exactly-two-statement initial policy,
and the event rule filtered to the group's name. -/
def domainArtifacts (ext : ExternalEnv) (d : CustomDomainProps)
    (asg : AutoScalingGroupModel) : DomainModel :=
  { hostedZoneId := d.hostedZoneId
    domainName := d.domainName
    fnEnvironment := [("HOSTED_ZONE_ID", d.hostedZoneId), ("DOMAIN_NAME", d.domainName)]
    initialPolicy :=
      [{ actions := ["route53:ChangeResourceRecordSets"],
         resources := [ext.hostedZoneArnOf d.hostedZoneId] },
       { actions := ["ec2:DescribeInstances"], resources := ["*"] }]
    ruleAsgFilter := [asg.autoScalingGroupName] }

/-- Everything the constructor does after the cluster is resolved, including
the conditional `customDomain` call.  Accessing
`this.autoScaling.autoScalingGroupName` when the non-null assertion produced
`undefined` raises a TypeError, modelled as an error. -/
def assemble (ext : ExternalEnv) (props : MinecraftCdkStackProps)
    (cluster : IClusterModel) (vpc : VpcModel) : Except String StackModel :=
  match props.customDomain with
  | none => .ok (assembleBase ext props cluster vpc)
  | some d =>
    match cluster.autoscalingGroup with
    | none => .error "TypeError: cannot read autoScalingGroupName of undefined"
    | some asg =>
      .ok { assembleBase ext props cluster vpc with
              domain := some (domainArtifacts ext d asg) }

/-- The VPC of the provisioning branch: the supplied one, else a new VPC with
two availability zones and a single public /26 subnet group. -/
def provisionedVpc (opts : ClusterOptions) : VpcModel :=
  opts.vpc.getD { maxAzs := 2, publicCidrMask := 26 }

/-- The capacity group of a provisioned cluster: the requested instance type,
key name and spot price, and capacity bounds fixed at minimum 0 / maximum 1. -/
def provisionedAsg (opts : ClusterOptions) : AutoScalingGroupModel :=
  { autoScalingGroupName := "DefaultAutoScalingGroup"
    instanceType := opts.instanceType
    keyName := opts.keyName
    spotPrice := opts.spotPrice
    minCapacity := 0
    maxCapacity := 1 }

/-- The cluster of the provisioning branch. -/
def provisionedCluster (opts : ClusterOptions) : IClusterModel :=
  { hasEc2Capacity := true
    autoscalingGroup := some (provisionedAsg opts)
    vpc := provisionedVpc opts }

/-- Faithful translation of the constructor's entry: the mutual-exclusivity
check, then either adoption of the supplied cluster (after the capacity
check) or provisioning of a new VPC and cluster, then the common assembly. -/
def buildStack (ext : ExternalEnv) (props : MinecraftCdkStackProps) :
    Except String StackModel :=
  if (props.cluster.isNone && props.clusterOptions.isNone)
      || (props.cluster.isSome && props.clusterOptions.isSome) then
    .error "exactly one of cluster or clusterOptions must be provided"
  else
    match props.cluster with
    | some c =>
      if !c.hasEc2Capacity then .error "cluster must have ec2 capacity"
      else assemble ext props c c.vpc
    | none =>
      match props.clusterOptions with
      | some opts =>
        assemble ext props (provisionedCluster opts) (provisionedVpc opts)
      | none => .error "TypeError: cannot destructure properties of undefined"

/-- Whether a build completed without a thrown error. -/
def isOkE : Except String StackModel → Bool
  | .ok _ => true
  | .error _ => false

/-- Derived environment of a completed build (empty for a failed one). -/
def envOf : Except String StackModel → List (String × String)
  | .ok s => s.environment
  | .error _ => []

/-- Secret-binding map of a completed build. -/
def secretsOf : Except String StackModel → List (String × String)
  | .ok s => s.secrets
  | .error _ => []

/-- Cluster ingress rules of a completed build. -/
def ingressOf : Except String StackModel → List IngressRule
  | .ok s => s.clusterIngress
  | .error _ => []

/-- The value the non-null assertion `this.cluster.autoscalingGroup!` stored. -/
def autoScalingOf : Except String StackModel → Option AutoScalingGroupModel
  | .ok s => s.autoScaling
  | .error _ => none

/-- Capacity bounds (min, max) of the cluster a completed build uses. -/
def capacityBoundsOf : Except String StackModel → Option (Nat × Nat)
  | .ok s => s.cluster.autoscalingGroup.map (fun a => (a.minCapacity, a.maxCapacity))
  | .error _ => none

/-- Initial policy of the DNS rule function, when one was provisioned. -/
def domainPolicyOf : Except String StackModel → Option (List PolicyStatement)
  | .ok s => s.domain.map DomainModel.initialPolicy
  | .error _ => none

/-- A concrete external environment used for concrete evaluations. -/
def ext0 : ExternalEnv :=
  { assetUrlOf := fun p => String.append "https://assets.example/" p
    hostedZoneArnOf := fun z => String.append "arn:aws:route53:::hostedzone/" z }

/-- A concrete VPC used by concrete adopted clusters. -/
def vpc0 : VpcModel := { maxAzs := 2, publicCidrMask := 26 }

/-- Concrete cluster options for provisioning-branch evaluations. -/
def optsSmall : ClusterOptions := { instanceType := "t3.medium" }

/-- A concrete configuration taking the provisioning branch. -/
def propsProvision : MinecraftCdkStackProps := { clusterOptions := some optsSmall }

/-- The empty configuration: neither `cluster` nor `clusterOptions`. -/
def propsNeither : MinecraftCdkStackProps := {}

/-- A concrete adopted cluster without EC2 capacity. -/
def clusterNoCapacity : IClusterModel := { hasEc2Capacity := false, vpc := vpc0 }

/-- A concrete configuration adopting a capacity-less cluster. -/
def propsAdoptNoCapacity : MinecraftCdkStackProps :=
  { cluster := some clusterNoCapacity }

/-- A concrete existing capacity group with bounds minimum 2 / maximum 5. -/
def asgWide : AutoScalingGroupModel :=
  { autoScalingGroupName := "existing-group"
    instanceType := "m5.large"
    minCapacity := 2
    maxCapacity := 5 }

/-- A concrete existing cluster with EC2 capacity and wide capacity bounds. -/
def clusterWide : IClusterModel :=
  { hasEc2Capacity := true, autoscalingGroup := some asgWide, vpc := vpc0 }

/-- A concrete valid configuration adopting the wide-bounds cluster. -/
def propsAdoptWide : MinecraftCdkStackProps := { cluster := some clusterWide }

/-- A concrete configuration whose server options carry a present but empty
operator list. -/
def propsOpsEmpty : MinecraftCdkStackProps :=
  { clusterOptions := some optsSmall, serverOptions := some { ops := some [] } }

/-- A concrete configuration with rcon enabled and no server options. -/
def propsRconNoServerOptions : MinecraftCdkStackProps :=
  { clusterOptions := some optsSmall, rcon := some true }

/-- Concrete server options with the operator list a, b, c. -/
def soOpsABC : MinecraftServerOptions := { ops := some ["a", "b", "c"] }

/-- A concrete custom-domain configuration. -/
def domainExample : CustomDomainProps :=
  { hostedZoneId := "Z123", domainName := "mc.example.com" }

/-- A concrete configuration with a custom domain. -/
def propsWithDomain : MinecraftCdkStackProps :=
  { clusterOptions := some optsSmall, customDomain := some domainExample }

/-- A concrete adopted cluster that has EC2 capacity but exposes no
autoscaling group (the `ICluster` interface allows this combination, e.g. a
cluster whose capacity was attached by `addCapacity` after construction). -/
def clusterCapacityNoAsg : IClusterModel :=
  { hasEc2Capacity := true, autoscalingGroup := none, vpc := vpc0 }

/-- A concrete valid configuration adopting the group-less cluster. -/
def propsAdoptCapacityNoAsg : MinecraftCdkStackProps :=
  { cluster := some clusterCapacityNoAsg }

/-! Helper lemmas about association-list lookups, makeEnv, and inversion of
completed builds. -/

theorem lookup_append_str (k : String) (l1 l2 : List (String × String)) :
    List.lookup k (l1 ++ l2) =
      match List.lookup k l1 with
      | some v => some v
      | none => List.lookup k l2 := by
  induction l1 with
  | nil => simp
  | cons a t ih =>
    obtain ⟨k', v⟩ := a
    by_cases h : k == k' <;> simp [List.lookup, h, ih]

theorem lookup_strEntry_ne (k key : String) (v? : Option String)
    (h : (k == key) = false) : List.lookup k (strEntry key v?) = none := by
  cases v? with
  | none => rfl
  | some v =>
    by_cases hv : v == "" <;> simp [strEntry, hv, List.lookup, h]

theorem lookup_listEntry_ne (k key : String) (l? : Option (List String))
    (h : (k == key) = false) : List.lookup k (listEntry key l?) = none := by
  cases l? <;> simp [listEntry, List.lookup, h]

theorem lookup_listEntry_self (key : String) (l? : Option (List String)) :
    List.lookup key (listEntry key l?) = l?.map (String.intercalate ",") := by
  cases l? <;> simp [listEntry, List.lookup]

theorem lookup_diffEntry_ne (k : String) (d? : Option Difficulty)
    (h : (k == "DIFFICULTY") = false) : List.lookup k (diffEntry d?) = none := by
  cases d? <;> simp [diffEntry, List.lookup, h]

theorem lookup_modpackEntry_ne (k : String) (a? : Option AssetModel)
    (h : (k == "MODPACK") = false) : List.lookup k (modpackEntry a?) = none := by
  cases a? <;> simp [modpackEntry, List.lookup, h]

theorem lookup_rconEntry_ne (k : String) (rc : Bool)
    (h : (k == "ENABLE_RCON") = false) : List.lookup k (rconEntry rc) = none := by
  cases rc <;> simp [rconEntry, List.lookup, h]

theorem makeEnv_lookup_OPS (pl : Option AssetModel) (rc : Bool)
    (p : MinecraftServerOptions) :
    List.lookup "OPS" (makeEnv pl rc (some p)) =
      (p.ops).map (String.intercalate ",") := by
  simp [makeEnv, lookup_append_str, lookup_strEntry_ne, lookup_diffEntry_ne,
    lookup_listEntry_ne, lookup_listEntry_self, lookup_modpackEntry_ne,
    lookup_rconEntry_ne, baselineEnv, List.lookup]
  cases p.ops <;> simp

theorem makeEnv_lookup_MODS (pl : Option AssetModel) (rc : Bool)
    (p : MinecraftServerOptions) :
    List.lookup "MODS" (makeEnv pl rc (some p)) =
      (p.mods).map (String.intercalate ",") := by
  simp [makeEnv, lookup_append_str, lookup_strEntry_ne, lookup_diffEntry_ne,
    lookup_listEntry_ne, lookup_listEntry_self, lookup_modpackEntry_ne,
    lookup_rconEntry_ne, baselineEnv, List.lookup]
  cases p.mods <;> simp

theorem makeEnv_lookup_EULA (pl : Option AssetModel) (rc : Bool)
    (p? : Option MinecraftServerOptions) :
    List.lookup "EULA" (makeEnv pl rc p?) = some "true" := by
  cases p? <;> simp [makeEnv, baselineEnv, lookup_append_str, List.lookup]

theorem makeEnv_lookup_TYPE (pl : Option AssetModel) (rc : Bool)
    (p? : Option MinecraftServerOptions) :
    List.lookup "TYPE" (makeEnv pl rc p?) = some "PAPER" := by
  cases p? <;> simp [makeEnv, baselineEnv, lookup_append_str, List.lookup]

theorem makeEnv_lookup_OVERRIDE (pl : Option AssetModel) (rc : Bool)
    (p? : Option MinecraftServerOptions) :
    List.lookup "OVERRIDE_SERVER_PROPERTIES" (makeEnv pl rc p?) = some "true" := by
  cases p? <;> simp [makeEnv, baselineEnv, lookup_append_str, List.lookup]

theorem makeEnv_lookup_FORCE (pl : Option AssetModel) (rc : Bool)
    (p? : Option MinecraftServerOptions) :
    List.lookup "FORCE_REDOWNLOAD" (makeEnv pl rc p?) = some "true" := by
  cases p? <;> simp [makeEnv, baselineEnv, lookup_append_str, List.lookup]

theorem assemble_ok_inv (ext : ExternalEnv) (props : MinecraftCdkStackProps)
    (cluster : IClusterModel) (vpc : VpcModel) (s : StackModel)
    (h : assemble ext props cluster vpc = .ok s) :
    s.cluster = cluster ∧ s.autoScaling = cluster.autoscalingGroup ∧
    s.clusterIngress =
      baselineIngress ++ (if truthyBool props.rcon then [rconIngress] else []) ∧
    s.environment =
      makeEnv (pluginAssetOf ext props.plugins) (truthyBool props.rcon)
        props.serverOptions ∧
    s.secrets = makeSecret (truthyBool props.rcon) := by
  unfold assemble at h
  split at h
  · simp only [Except.ok.injEq] at h
    subst h
    simp [assembleBase]
  · split at h
    · exact absurd h (by simp)
    · simp only [Except.ok.injEq] at h
      subst h
      simp [assembleBase]

theorem assemble_ok_domain (ext : ExternalEnv) (props : MinecraftCdkStackProps)
    (cluster : IClusterModel) (vpc : VpcModel) (s : StackModel)
    (d : CustomDomainProps) (hd : props.customDomain = some d)
    (h : assemble ext props cluster vpc = .ok s) :
    ∃ asg, cluster.autoscalingGroup = some asg ∧
      s.domain = some (domainArtifacts ext d asg) := by
  unfold assemble at h
  rw [hd] at h
  dsimp only at h
  split at h
  · exact absurd h (by simp)
  · rename_i asg hasg
    simp only [Except.ok.injEq] at h
    subst h
    exact ⟨asg, hasg, by simp⟩

theorem buildStack_ok_inv (ext : ExternalEnv) (props : MinecraftCdkStackProps)
    (s : StackModel) (h : buildStack ext props = .ok s) :
    ∃ cluster vpc, assemble ext props cluster vpc = .ok s ∧
      ((∃ c, props.cluster = some c ∧ c.hasEc2Capacity = true ∧ cluster = c) ∨
       (props.cluster = none ∧ ∃ opts, props.clusterOptions = some opts ∧
          cluster = provisionedCluster opts)) := by
  unfold buildStack at h
  split at h
  · exact absurd h (by simp)
  · split at h
    · rename_i c hc
      split at h
      · exact absurd h (by simp)
      · rename_i hcap
        refine ⟨c, c.vpc, h, Or.inl ⟨c, hc, ?_, rfl⟩⟩
        simpa using hcap
    · rename_i hc
      split at h
      · rename_i opts hopts
        exact ⟨_, _, h, Or.inr ⟨hc, opts, hopts, rfl⟩⟩
      · exact absurd h (by simp)

/-! Claim theorems. -/

/-- C1: for every configuration in which both of `cluster` and
`clusterOptions` are present, or neither is present, construction fails with
the mutual-exclusivity configuration error; the build returns the error
before any resource is created, so no partial resource graph is produced. -/
theorem C1_mutual_exclusivity_error (ext : ExternalEnv) (props : MinecraftCdkStackProps)
    (h : props.cluster.isSome = props.clusterOptions.isSome) :
    buildStack ext props =
      .error "exactly one of cluster or clusterOptions must be provided" := by
  rcases hc : props.cluster with _ | c <;> rcases ho : props.clusterOptions with _ | o
  · simp [buildStack, hc, ho]
  · rw [hc, ho] at h; simp at h
  · rw [hc, ho] at h; simp at h
  · simp [buildStack, hc, ho]

/-- Witness for C1 at the empty configuration (neither option present). -/
theorem C1_mutual_exclusivity_error_witness :
    propsNeither.cluster.isSome = propsNeither.clusterOptions.isSome ∧
    buildStack ext0 propsNeither =
      .error "exactly one of cluster or clusterOptions must be provided" :=
  ⟨rfl, C1_mutual_exclusivity_error ext0 propsNeither rfl⟩

/-- C2: for every configuration in which `cluster` is present but that
cluster lacks EC2 capacity, construction fails with a configuration error
before any resource is created (the build never completes). -/
theorem C2_capacity_check_failure (ext : ExternalEnv)
    (props : MinecraftCdkStackProps) (c : IClusterModel)
    (hc : props.cluster = some c) (hcap : c.hasEc2Capacity = false) :
    isOkE (buildStack ext props) = false := by
  rcases ho : props.clusterOptions with _ | o
  · simp [buildStack, hc, ho, hcap, isOkE]
  · simp [buildStack, hc, ho, isOkE]

/-- Witness for C2 at a concrete capacity-less adopted cluster. -/
theorem C2_capacity_check_failure_witness :
    propsAdoptNoCapacity.cluster = some clusterNoCapacity ∧
    clusterNoCapacity.hasEc2Capacity = false ∧
    isOkE (buildStack ext0 propsAdoptNoCapacity) = false :=
  ⟨rfl, rfl, C2_capacity_check_failure ext0 propsAdoptNoCapacity clusterNoCapacity rfl rfl⟩

/-- C3 counterexample: a valid configuration that adopts an existing cluster
whose capacity group has bounds minimum 2 / maximum 5 builds successfully,
and the cluster actually used keeps those bounds, not minimum 0 / maximum 1;
the adoption branch does not constrain capacity bounds. -/
theorem C3_capacity_bounds_counterexample :
    isOkE (buildStack ext0 propsAdoptWide) = true ∧
    capacityBoundsOf (buildStack ext0 propsAdoptWide) = some (2, 5) ∧
    capacityBoundsOf (buildStack ext0 propsAdoptWide) ≠ some (0, 1) :=
  ⟨by decide, by decide, by decide⟩

/-- C3 (amended): for every valid configuration taking the
provision-new-cluster branch, the compute cluster actually used has capacity
bounds of minimum 0 and maximum 1 instance; the adopt branch keeps the
supplied cluster, and with it whatever bounds that cluster already had. -/
theorem C3_provisioned_capacity_bounds (ext : ExternalEnv)
    (props : MinecraftCdkStackProps)
    (hprov : props.cluster = none) (hok : isOkE (buildStack ext props) = true) :
    capacityBoundsOf (buildStack ext props) = some (0, 1) := by
  cases hb : buildStack ext props with
  | error e => rw [hb] at hok; simp [isOkE] at hok
  | ok s =>
    obtain ⟨cl, vpc, ha, hbr⟩ := buildStack_ok_inv ext props s hb
    obtain ⟨hcl, _⟩ := assemble_ok_inv ext props cl vpc s ha
    rcases hbr with ⟨c, hc, _, rfl⟩ | ⟨hnone, opts, hopts, rfl⟩
    · rw [hprov] at hc; cases hc
    · simp [capacityBoundsOf, hcl, provisionedCluster, provisionedAsg]

/-- Witness for the amended C3 at a concrete provisioning configuration. -/
theorem C3_provisioned_capacity_bounds_witness :
    propsProvision.cluster = none ∧
    isOkE (buildStack ext0 propsProvision) = true ∧
    capacityBoundsOf (buildStack ext0 propsProvision) = some (0, 1) :=
  ⟨rfl, by decide, C3_provisioned_capacity_bounds ext0 propsProvision rfl (by decide)⟩

/-- C4 counterexample: a present but empty operator list is truthy in
JavaScript, so the build succeeds with the `OPS` key present and bound to the
empty string — the claim says a present-but-empty list never yields a key,
and never one bound to an empty value. -/
theorem C4_empty_ops_counterexample :
    isOkE (buildStack ext0 propsOpsEmpty) = true ∧
    List.lookup "OPS" (envOf (buildStack ext0 propsOpsEmpty)) = some "" :=
  ⟨by decide, by decide⟩

/-- C4 (amended): the derived environment contains `OPS` iff the operator
list is present — including present-but-empty, in which case `OPS` is bound
to the empty string — with value the comma-join of the list; likewise `MODS`
for the mod list; an absent option omits the key entirely (also when the
whole server-options object is absent). -/
theorem C4_ops_mods_keys (pl : Option AssetModel) (rc : Bool)
    (o : MinecraftServerOptions) :
    List.lookup "OPS" (makeEnv pl rc (some o)) = (o.ops).map (String.intercalate ",") ∧
    List.lookup "MODS" (makeEnv pl rc (some o)) = (o.mods).map (String.intercalate ",") ∧
    List.lookup "OPS" (makeEnv pl rc none) = none ∧
    List.lookup "MODS" (makeEnv pl rc none) = none :=
  ⟨makeEnv_lookup_OPS pl rc o, makeEnv_lookup_MODS pl rc o, rfl, rfl⟩

/-- C5: evaluation at the failing input — `rcon: true` with `serverOptions`
absent.  The build succeeds, the secret-binding map has its entry and the
TCP/25575 ingress rule is attached, yet the derived environment does NOT
contain `ENABLE_RCON`, because `makeEnv` returns early when the server
options are absent, skipping the `ENABLE_RCON` (and `MODPACK`) lines. -/
theorem C5_rcon_flag_skipped_eval :
    isOkE (buildStack ext0 propsRconNoServerOptions) = true ∧
    List.lookup "ENABLE_RCON" (envOf (buildStack ext0 propsRconNoServerOptions)) = none ∧
    secretsOf (buildStack ext0 propsRconNoServerOptions) = [("RCON_PASSWORD", "RconSecret")] ∧
    rconIngress ∈ ingressOf (buildStack ext0 propsRconNoServerOptions) :=
  ⟨by decide, by decide, by decide, by decide⟩

/-- C6: for every configuration that builds, whatever the server options
(including entirely absent), the derived environment contains the four
baseline entries `EULA`, `TYPE`, `OVERRIDE_SERVER_PROPERTIES` and
`FORCE_REDOWNLOAD` with their fixed values. -/
theorem C6_baseline_env (ext : ExternalEnv) (props : MinecraftCdkStackProps)
    (hok : isOkE (buildStack ext props) = true) :
    List.lookup "EULA" (envOf (buildStack ext props)) = some "true" ∧
    List.lookup "TYPE" (envOf (buildStack ext props)) = some "PAPER" ∧
    List.lookup "OVERRIDE_SERVER_PROPERTIES" (envOf (buildStack ext props)) = some "true" ∧
    List.lookup "FORCE_REDOWNLOAD" (envOf (buildStack ext props)) = some "true" := by
  cases hb : buildStack ext props with
  | error e => rw [hb] at hok; simp [isOkE] at hok
  | ok s =>
    obtain ⟨cl, vpc, ha, _⟩ := buildStack_ok_inv ext props s hb
    obtain ⟨_, _, _, henv, _⟩ := assemble_ok_inv ext props cl vpc s ha
    simp only [envOf, henv]
    exact ⟨makeEnv_lookup_EULA _ _ _, makeEnv_lookup_TYPE _ _ _,
      makeEnv_lookup_OVERRIDE _ _ _, makeEnv_lookup_FORCE _ _ _⟩

/-- Witness for C6 at a concrete provisioning configuration. -/
theorem C6_baseline_env_witness :
    isOkE (buildStack ext0 propsProvision) = true ∧
    List.lookup "EULA" (envOf (buildStack ext0 propsProvision)) = some "true" ∧
    List.lookup "TYPE" (envOf (buildStack ext0 propsProvision)) = some "PAPER" ∧
    List.lookup "OVERRIDE_SERVER_PROPERTIES" (envOf (buildStack ext0 propsProvision)) = some "true" ∧
    List.lookup "FORCE_REDOWNLOAD" (envOf (buildStack ext0 propsProvision)) = some "true" :=
  ⟨by decide, C6_baseline_env ext0 propsProvision (by decide)⟩

/-- C7: for every configuration that builds — in both the adopt and the
provision branch, regardless of optional features — the first three ingress
rules attached to the cluster's connections are TCP/22, TCP/25565 and ICMP
ping, each allowed from any IPv4 source. -/
theorem C7_baseline_ingress (ext : ExternalEnv) (props : MinecraftCdkStackProps)
    (hok : isOkE (buildStack ext props) = true) :
    List.take 3 (ingressOf (buildStack ext props)) = baselineIngress := by
  cases hb : buildStack ext props with
  | error e => rw [hb] at hok; simp [isOkE] at hok
  | ok s =>
    obtain ⟨cl, vpc, ha, _⟩ := buildStack_ok_inv ext props s hb
    obtain ⟨_, _, hing, _⟩ := assemble_ok_inv ext props cl vpc s ha
    simp only [ingressOf, hing]
    cases truthyBool props.rcon <;> simp [baselineIngress]

/-- Witness for C7 at a concrete provisioning configuration. -/
theorem C7_baseline_ingress_witness :
    isOkE (buildStack ext0 propsProvision) = true ∧
    List.take 3 (ingressOf (buildStack ext0 propsProvision)) = baselineIngress :=
  ⟨by decide, C7_baseline_ingress ext0 propsProvision (by decide)⟩

/-- C8: for every non-empty operator list, the derived environment's `OPS`
variable equals the list's elements joined with commas, in the original
order, with no trailing separator. -/
theorem C8_ops_comma_join (pl : Option AssetModel) (rc : Bool)
    (o : MinecraftServerOptions) (l : List String)
    (hops : o.ops = some l) (hne : l ≠ []) :
    List.lookup "OPS" (makeEnv pl rc (some o)) = some (String.intercalate "," l) := by
  rw [makeEnv_lookup_OPS, hops]
  rfl

/-- Witness for C8 at the operator list a, b, c: `OPS` is the string a,b,c. -/
theorem C8_ops_comma_join_witness :
    soOpsABC.ops = some ["a", "b", "c"] ∧ (["a", "b", "c"] : List String) ≠ [] ∧
    List.lookup "OPS" (makeEnv none false (some soOpsABC)) = some "a,b,c" :=
  ⟨rfl, by decide, C8_ops_comma_join none false soOpsABC ["a", "b", "c"] rfl (by decide)⟩

/-- C9: for every configuration with `customDomain` present that builds, the
DNS rule-evaluation function's initial policy is exactly two statements:
record-set mutation scoped to the resolved hosted zone's ARN, and read-only
instance description scoped to all resources. -/
theorem C9_domain_policy (ext : ExternalEnv) (props : MinecraftCdkStackProps)
    (d : CustomDomainProps) (hd : props.customDomain = some d)
    (hok : isOkE (buildStack ext props) = true) :
    domainPolicyOf (buildStack ext props) =
      some [{ actions := ["route53:ChangeResourceRecordSets"],
              resources := [ext.hostedZoneArnOf d.hostedZoneId] },
            { actions := ["ec2:DescribeInstances"], resources := ["*"] }] := by
  cases hb : buildStack ext props with
  | error e => rw [hb] at hok; simp [isOkE] at hok
  | ok s =>
    obtain ⟨cl, vpc, ha, _⟩ := buildStack_ok_inv ext props s hb
    obtain ⟨asg, _, hdom⟩ := assemble_ok_domain ext props cl vpc s d hd ha
    simp [domainPolicyOf, hdom, domainArtifacts]

/-- Witness for C9 at a concrete configuration with a custom domain. -/
theorem C9_domain_policy_witness :
    propsWithDomain.customDomain = some domainExample ∧
    isOkE (buildStack ext0 propsWithDomain) = true ∧
    domainPolicyOf (buildStack ext0 propsWithDomain) =
      some [{ actions := ["route53:ChangeResourceRecordSets"],
              resources := [ext0.hostedZoneArnOf domainExample.hostedZoneId] },
            { actions := ["ec2:DescribeInstances"], resources := ["*"] }] :=
  ⟨rfl, by decide, C9_domain_policy ext0 propsWithDomain domainExample rfl (by decide)⟩

/-- C10 counterexample: an adopted cluster can pass the EC2-capacity check
while exposing no autoscaling group (the `ICluster` interface keeps the two
independent), so the value stored by the non-null assertion
`this.cluster.autoscalingGroup!` is undefined even though the build
completes: the validated precondition does not make the assertion safe. -/
theorem C10_assertion_counterexample :
    clusterCapacityNoAsg.hasEc2Capacity = true ∧
    isOkE (buildStack ext0 propsAdoptCapacityNoAsg) = true ∧
    autoScalingOf (buildStack ext0 propsAdoptCapacityNoAsg) = none :=
  ⟨rfl, by decide, by decide⟩

/-- C10 (amended): the capacity check does not guarantee an autoscaling
group.  In the adopt branch the non-null assertion stores exactly the
supplied cluster's `autoscalingGroup`, defined iff the cluster exposes one;
in the provision branch it is always defined. -/
theorem C10_assertion_amended (ext : ExternalEnv) (props : MinecraftCdkStackProps)
    (hok : isOkE (buildStack ext props) = true) :
    (∀ c, props.cluster = some c →
      autoScalingOf (buildStack ext props) = c.autoscalingGroup) ∧
    (props.cluster = none → (autoScalingOf (buildStack ext props)).isSome = true) := by
  cases hb : buildStack ext props with
  | error e => rw [hb] at hok; simp [isOkE] at hok
  | ok s =>
    obtain ⟨cl, vpc, ha, hbr⟩ := buildStack_ok_inv ext props s hb
    obtain ⟨hcl, hauto, _⟩ := assemble_ok_inv ext props cl vpc s ha
    constructor
    · intro c hc
      rcases hbr with ⟨c', hc', _, rfl⟩ | ⟨hnone, _, _, _⟩
      · rw [hc] at hc'
        injection hc' with hcc
        subst hcc
        simp [autoScalingOf, hauto]
      · rw [hnone] at hc; cases hc
    · intro hnone
      rcases hbr with ⟨c', hc', _, _⟩ | ⟨_, opts, _, rfl⟩
      · rw [hnone] at hc'; cases hc'
      · simp [autoScalingOf, hauto, provisionedCluster]

/-- Witness for the amended C10 at a concrete provisioning configuration. -/
theorem C10_assertion_amended_witness :
    isOkE (buildStack ext0 propsProvision) = true ∧
    propsProvision.cluster = none ∧
    (autoScalingOf (buildStack ext0 propsProvision)).isSome = true :=
  ⟨by decide, rfl, (C10_assertion_amended ext0 propsProvision (by decide)).2 rfl⟩

end MinecraftCdk
